import Mathlib

/-!
Verification of the capture-orchestration and media-stream core of sngrep
(`src/capture/capture.c` and `stream.c`), shallowly embedded in Lean 4.

Effectful C code is modelled by explicit state passing: the monotonic clock
(`g_get_monotonic_time`) becomes an explicit `now : Int` argument, and the
side effects of the capture manager's loops over sinks (calling each sink's
`close`/`write` operation) become explicit event traces in registration
order.  Machine integers that never rely on wraparound are modelled as
`Nat`/`Int`.
-/

set_option autoImplicit false

namespace Sngrep

/-! ## External collaborators of stream.c -/

/-- A captured network frame.  Modelled from the spec: a packet is "one
captured network frame with an associated capture timestamp"
(`packet_time` lives in packet code outside the given sources). -/
structure Packet where
  time : Int
  deriving Repr, DecidableEq

/-- `packet_time`: the capture timestamp associated with a packet. -/
def packet_time (packet : Packet) : Int :=
  packet.time

/-- A network address (src/dst endpoint of a stream). Opaque here. -/
structure Address where
  id : Nat
  deriving Repr, DecidableEq

/-- Back-reference target: the owning signaling message. Opaque here. -/
structure Message where
  id : Nat
  deriving Repr, DecidableEq

/-- One declared dynamic payload-format entry of an SDP media descriptor
(`PacketSdpFormat`): a format id with its alias (the C field `alias` is
called `aliasName` here because `alias` is reserved in Lean). -/
structure PacketSdpFormat where
  id : Nat
  aliasName : String
  deriving Repr, DecidableEq

/-- The negotiated SDP media descriptor (`PacketSdpMedia`): carries the
declared dynamic format list. -/
structure PacketSdpMedia where
  formats : List PacketSdpFormat
  deriving Repr, DecidableEq

/-- One entry of the static RTP payload-type table (`PacketRtpEncoding`):
a payload code with its canonical format name. -/
structure PacketRtpEncoding where
  id : Nat
  format : String
  deriving Repr, DecidableEq

/-- Modelled from the spec: the "static, built-in payload-type table"
(`packet_rtp.c` is not among the given sources).  Contents are the
standard RTP payload types; the claims only depend on membership. -/
def rtp_encodings : List PacketRtpEncoding :=
  [⟨0, "PCMU"⟩, ⟨3, "GSM"⟩, ⟨4, "G723"⟩, ⟨5, "DVI4"⟩, ⟨6, "DVI4"⟩,
   ⟨7, "LPC"⟩, ⟨8, "PCMA"⟩, ⟨9, "G722"⟩, ⟨10, "L16"⟩, ⟨11, "L16"⟩,
   ⟨12, "QCELP"⟩, ⟨13, "CN"⟩, ⟨14, "MPA"⟩, ⟨15, "G728"⟩, ⟨16, "DVI4"⟩,
   ⟨17, "DVI4"⟩, ⟨18, "G729"⟩, ⟨25, "CELB"⟩, ⟨26, "JPEG"⟩, ⟨28, "NV"⟩,
   ⟨31, "H261"⟩, ⟨32, "MPV"⟩, ⟨33, "MP2T"⟩, ⟨34, "H263"⟩]

/-- Modelled from the spec: `packet_rtp_standard_codec` looks a payload
code up in the static built-in table, returning its entry when found. -/
def packet_rtp_standard_codec (code : Nat) : Option PacketRtpEncoding :=
  rtp_encodings.find? (fun e => e.id == code)

/-! ## Media Stream (stream.c) -/

/-- `enum StreamType`: the enumerated media kind of a stream. -/
inductive StreamType where
  | rtp
  | rtcp
  deriving Repr, DecidableEq

/-- `STREAM_INACTIVE_SECS`: the fixed inactivity threshold constant
(defined in the stream header, not among the given sources; the claims
depend only on it being a fixed nonnegative constant). -/
def STREAM_INACTIVE_SECS : Int := 3

/-- The `Stream` record of stream.c. -/
structure Stream where
  type : StreamType
  msg : Option Message
  media : Option PacketSdpMedia
  packets : List Packet
  src : Address
  dst : Address
  fmtcode : Nat
  pkt_count : Nat
  firsttv : Int
  lasttm : Int
  changed : Bool
  deriving Repr, DecidableEq

/-- `stream_new`: allocate a zeroed stream (`g_malloc0`), set type and the
two back-references, and create the empty owned packet container. -/
def stream_new (type : StreamType) (msg : Option Message)
    (media : Option PacketSdpMedia) : Stream :=
  { type := type
    msg := msg
    media := media
    packets := []
    src := ⟨0⟩
    dst := ⟨0⟩
    fmtcode := 0
    pkt_count := 0
    firsttv := 0
    lasttm := 0
    changed := false }

/-- `stream_set_src`. -/
def stream_set_src (stream : Stream) (src : Address) : Stream :=
  { stream with src := src }

/-- `stream_set_dst`. -/
def stream_set_dst (stream : Stream) (dst : Address) : Stream :=
  { stream with dst := dst }

/-- `stream_set_data`: set both endpoints. -/
def stream_set_data (stream : Stream) (src dst : Address) : Stream :=
  { stream with src := src, dst := dst }

/-- `stream_set_format`. -/
def stream_set_format (stream : Stream) (format : Nat) : Stream :=
  { stream with fmtcode := format }

/-- `stream_add_packet`: set last-activity to the current monotonic time
(`now`), set the dirty flag, increment the packet count, and if the count
just became 1 record the packet's capture time as the first timestamp. -/
def stream_add_packet (stream : Stream) (packet : Packet) (now : Int) : Stream :=
  let s := { stream with
               lasttm := now
               changed := true
               pkt_count := stream.pkt_count + 1 }
  if s.pkt_count == 1 then { s with firsttv := packet_time packet } else s

/-- `stream_get_count`. -/
def stream_get_count (stream : Stream) : Nat :=
  stream.pkt_count

/-- The loop of `stream_get_format` over the media descriptor's declared
dynamic formats: return the alias of the first entry whose id equals the
stream's format code. -/
def sdp_format_for : List PacketSdpFormat → Nat → Option String
  | [], _ => none
  | f :: rest, code => if f.id == code then some f.aliasName else sdp_format_for rest code

/-- `stream_get_format`: null guard on the stream and its media
back-reference, then the static-table lookup, then the dynamic scan,
else null. -/
def stream_get_format (stream : Option Stream) : Option String :=
  match stream with
  | none => none
  | some s =>
    match s.media with
    | none => none
    | some media =>
      match packet_rtp_standard_codec s.fmtcode with
      | some encoding => some encoding.format
      | none => sdp_format_for media.formats s.fmtcode

/-- `stream_time`: the first-packet timestamp. -/
def stream_time (stream : Stream) : Int :=
  stream.firsttv

/-- `stream_is_active`: elapsed monotonic time since last activity is at
most the inactivity threshold. -/
def stream_is_active (stream : Stream) (now : Int) : Bool :=
  now - stream.lasttm ≤ STREAM_INACTIVE_SECS

/-- A whole sequence of `stream_add_packet` calls, each with its packet and
the monotonic time at which it runs, applied in order to a stream. -/
def stream_add_packets (stream : Stream) (calls : List (Packet × Int)) : Stream :=
  calls.foldl (fun s call => stream_add_packet s call.1 call.2) stream

/-! ## Capture Orchestrator (capture.c) -/

/-- `enum CaptureMode` (capture header, not among the given sources): the
capture.c code distinguishes only `CAPTURE_MODE_OFFLINE` from the rest. -/
inductive CaptureMode where
  | online
  | offline
  deriving Repr, DecidableEq

/-- A `CaptureInput` (capture source): its mode tag, whether its loop
handle has been destroyed (`g_source_is_destroyed`, i.e. an offline source
finished loading), and its optional filter-apply operation, modelled as
the predicate telling which filter expressions it accepts. -/
structure CaptureInput where
  mode : CaptureMode
  sourceDestroyed : Bool
  filter : Option (String → Bool)

/-- A `CaptureOutput` (capture sink): the presence of its optional `write`
and `close` operations (nullable function pointers in the C struct); the
operations themselves are external collaborator code, so a call to one is
recorded as a trace event rather than interpreted. -/
structure CaptureOutput where
  write : Option Unit
  close : Option Unit
  deriving Repr, DecidableEq

/-- The `CaptureManager` record of capture.c (loop/thread handles and the
TLS decryption material are opaque to the verified claims and omitted). -/
structure CaptureManager where
  inputs : List CaptureInput
  outputs : List CaptureOutput
  filter : Option String
  paused : Bool
  keyfile : Option String

/-- Observable side effects of the capture manager's loops over its sinks
and its shutdown sequence, in the order they are performed.  A sink is
identified by its position in the registration order. -/
inductive CaptureEvent where
  | closeOutput (index : Nat)
  | writeOutput (index : Nat)
  | quitLoop
  | joinThread
  deriving Repr, DecidableEq

/-- The sink loop of `capture_manager_stop`, starting at sink `index`:
call `close` on every sink that has one, in registration order. -/
def close_outputs_from (index : Nat) : List CaptureOutput → List CaptureEvent
  | [] => []
  | output :: rest =>
    if output.close.isSome then
      CaptureEvent.closeOutput index :: close_outputs_from (index + 1) rest
    else
      close_outputs_from (index + 1) rest

/-- `capture_manager_stop`: close every sink (skipping those without a
close operation), then quit the loop, then join the capture thread. -/
def capture_manager_stop (manager : CaptureManager) : List CaptureEvent :=
  close_outputs_from 0 manager.outputs ++ [CaptureEvent.quitLoop, CaptureEvent.joinThread]

/-- The sink loop of `capture_manager_output_packet`, starting at sink
`index`: call `write` on every sink that has one, in registration order. -/
def write_outputs_from (index : Nat) : List CaptureOutput → List CaptureEvent
  | [] => []
  | output :: rest =>
    if output.write.isSome then
      CaptureEvent.writeOutput index :: write_outputs_from (index + 1) rest
    else
      write_outputs_from (index + 1) rest

/-- `capture_manager_output_packet`: fan a captured packet out to every
sink's write operation in registration order. -/
def capture_manager_output_packet (manager : CaptureManager) (packet : Packet) :
    List CaptureEvent :=
  write_outputs_from 0 manager.outputs

/-- The input loop of `capture_manager_set_filter`: apply the expression
to each source that has a filter operation; on the first rejection clear
the manager's stored filter and report failure, after the last source
store the expression and report success. -/
def set_filter_loop (manager : CaptureManager) (filter : String) :
    List CaptureInput → CaptureManager × Bool
  | [] => ({ manager with filter := some filter }, true)
  | input :: rest =>
    match input.filter with
    | some applyF =>
      if applyF filter then
        set_filter_loop manager filter rest
      else
        ({ manager with filter := none }, false)
    | none => set_filter_loop manager filter rest

/-- `capture_manager_set_filter`: run the input loop over the registered
sources in registration order. -/
def capture_manager_set_filter (manager : CaptureManager) (filter : String) :
    CaptureManager × Bool :=
  set_filter_loop manager filter manager.inputs

/-- `capture_manager_filter`: the stored filter expression. -/
def capture_manager_filter (manager : CaptureManager) : Option String :=
  manager.filter

/-- The counting loop of `capture_status_desc`: per input, an offline-mode
source counts as offline (and as loading while its loop handle is not yet
destroyed); any other source counts as online. -/
def status_counts : List CaptureInput → Nat × Nat × Nat
  | [] => (0, 0, 0)
  | input :: rest =>
    let counts := status_counts rest
    if input.mode == CaptureMode.offline then
      (counts.1, counts.2.1 + 1,
       if !input.sourceDestroyed then counts.2.2 + 1 else counts.2.2)
    else
      (counts.1 + 1, counts.2.1, counts.2.2)

/-- `capture_status_desc`: the status text derived from the counts (the
`USE_HEP` branch in the C source is disabled by a constant-false guard). -/
def capture_status_desc (manager : CaptureManager) : String :=
  let counts := status_counts manager.inputs
  let online := counts.1
  let offline := counts.2.1
  let loading := counts.2.2
  if manager.paused then
    if online > 0 && offline == 0 then "Online (Paused)"
    else if online == 0 && offline > 0 then "Offline (Paused)"
    else "Mixed (Paused)"
  else if loading > 0 then
    if online > 0 && offline == 0 then "Online (Loading)"
    else if online == 0 && offline > 0 then "Offline (Loading)"
    else "Mixed (Loading)"
  else
    if online > 0 && offline == 0 then "Online"
    else if online == 0 && offline > 0 then "Offline"
    else "Mixed"

/-- The loop of `capture_is_online`: return false as soon as an
offline-mode source is found, true past the last source. -/
def is_online_loop : List CaptureInput → Bool
  | [] => true
  | input :: rest =>
    if input.mode == CaptureMode.offline then false else is_online_loop rest

/-- `capture_is_online`. -/
def capture_is_online (manager : CaptureManager) : Bool :=
  is_online_loop manager.inputs

/-- `capture_sources_count`. -/
def capture_sources_count (manager : CaptureManager) : Nat :=
  manager.inputs.length

/-- `capture_manager_add_input`: append to the source collection. -/
def capture_manager_add_input (manager : CaptureManager) (input : CaptureInput) :
    CaptureManager :=
  { manager with inputs := manager.inputs ++ [input] }

/-- `capture_manager_add_output`: append to the sink collection. -/
def capture_manager_add_output (manager : CaptureManager) (output : CaptureOutput) :
    CaptureManager :=
  { manager with outputs := manager.outputs ++ [output] }

/-- `capture_manager_set_pause`: store the advisory flag. -/
def capture_manager_set_pause (manager : CaptureManager) (paused : Bool) :
    CaptureManager :=
  { manager with paused := paused }

/-! ## Spec-side formulations the claims are compared against -/

/-- The status truth table exactly as the spec words it: a category from
the two presence booleans, then a suffix with Paused taking precedence
over Loading. -/
def status_desc_table (paused onlinePos offlinePos loadingPos : Bool) : String :=
  let category :=
    if onlinePos && !offlinePos then "Online"
    else if !onlinePos && offlinePos then "Offline"
    else "Mixed"
  if paused then category ++ " (Paused)"
  else if loadingPos then category ++ " (Loading)"
  else category

/-! ## Concrete fixtures used by witnesses and sanity checks -/

/-- A media descriptor whose dynamic list collides with static code 0,
declares 96 twice (first "opus"), and never declares 99. -/
def mediaFixture : PacketSdpMedia :=
  ⟨[⟨0, "dynzero"⟩, ⟨96, "opus"⟩, ⟨96, "dup"⟩, ⟨97, "h264"⟩]⟩

/-- A fresh RTP stream over `mediaFixture` with format code 0 (in the
static table, colliding with a dynamic entry). -/
def streamStatic : Stream :=
  stream_set_format (stream_new StreamType.rtp none (some mediaFixture)) 0

/-- A fresh RTP stream over `mediaFixture` with format code 96 (dynamic
only, declared twice). -/
def streamDynamic : Stream :=
  stream_set_format (stream_new StreamType.rtp none (some mediaFixture)) 96

/-- A fresh RTP stream over `mediaFixture` with format code 99 (in
neither table). -/
def streamUnknown : Stream :=
  stream_set_format (stream_new StreamType.rtp none (some mediaFixture)) 99

/-- A live-mode source without a filter operation. -/
def liveInput : CaptureInput := ⟨CaptureMode.online, false, none⟩

/-- An offline-replay source whose loop handle is already destroyed
(finished loading). -/
def offlineDoneInput : CaptureInput := ⟨CaptureMode.offline, true, none⟩

/-- A freshly constructed manager: no sources, no sinks, no filter, not
paused. -/
def emptyManager : CaptureManager := ⟨[], [], none, false, none⟩

/-- The spec's end-to-end scenario: one live and one offline source. -/
def mixedManager : CaptureManager :=
  capture_manager_add_input (capture_manager_add_input emptyManager liveInput)
    offlineDoneInput

/-- A sink exposing both operations. -/
def sinkBoth : CaptureOutput := ⟨some (), some ()⟩

/-- A sink exposing neither operation. -/
def sinkNone : CaptureOutput := ⟨none, none⟩

/-- A manager with three sinks, the middle one without operations. -/
def sinkManager : CaptureManager := ⟨[], [sinkBoth, sinkNone, sinkBoth], none, false, none⟩

/-! ## Lemmas about stream_add_packet -/

/-- `stream_add_packet` written as one record update. -/
theorem stream_add_packet_def (s : Stream) (p : Packet) (now : Int) :
    stream_add_packet s p now =
      { s with
          lasttm := now
          changed := true
          pkt_count := s.pkt_count + 1
          firsttv := if s.pkt_count = 0 then packet_time p else s.firsttv } := by
  unfold stream_add_packet
  by_cases h : s.pkt_count = 0 <;> simp [h]

theorem stream_add_packet_pkt_count (s : Stream) (p : Packet) (now : Int) :
    (stream_add_packet s p now).pkt_count = s.pkt_count + 1 := by
  rw [stream_add_packet_def]

theorem stream_add_packet_lasttm (s : Stream) (p : Packet) (now : Int) :
    (stream_add_packet s p now).lasttm = now := by
  rw [stream_add_packet_def]

theorem stream_add_packet_changed (s : Stream) (p : Packet) (now : Int) :
    (stream_add_packet s p now).changed = true := by
  rw [stream_add_packet_def]

theorem stream_add_packet_firsttv_first (s : Stream) (p : Packet) (now : Int)
    (h : s.pkt_count = 0) :
    (stream_add_packet s p now).firsttv = packet_time p := by
  rw [stream_add_packet_def]
  simp [h]

theorem stream_add_packet_firsttv_later (s : Stream) (p : Packet) (now : Int)
    (h : s.pkt_count ≠ 0) :
    (stream_add_packet s p now).firsttv = s.firsttv := by
  rw [stream_add_packet_def]
  simp [h]

theorem stream_add_packet_frame_fields (s : Stream) (p : Packet) (now : Int) :
    (stream_add_packet s p now).packets = s.packets ∧
    (stream_add_packet s p now).type = s.type ∧
    (stream_add_packet s p now).msg = s.msg ∧
    (stream_add_packet s p now).media = s.media ∧
    (stream_add_packet s p now).src = s.src ∧
    (stream_add_packet s p now).dst = s.dst ∧
    (stream_add_packet s p now).fmtcode = s.fmtcode := by
  rw [stream_add_packet_def]
  exact ⟨rfl, rfl, rfl, rfl, rfl, rfl, rfl⟩

@[simp]
theorem stream_add_packets_nil (s : Stream) : stream_add_packets s [] = s := rfl

@[simp]
theorem stream_add_packets_cons (s : Stream) (call : Packet × Int)
    (calls : List (Packet × Int)) :
    stream_add_packets s (call :: calls) =
      stream_add_packets (stream_add_packet s call.1 call.2) calls := rfl

theorem stream_add_packets_pkt_count (calls : List (Packet × Int)) (s : Stream) :
    (stream_add_packets s calls).pkt_count = s.pkt_count + calls.length := by
  induction calls generalizing s with
  | nil => simp
  | cons call rest ih =>
    rw [stream_add_packets_cons, ih, stream_add_packet_pkt_count, List.length_cons]
    omega

theorem stream_add_packets_firsttv_frozen (calls : List (Packet × Int)) (s : Stream)
    (h : s.pkt_count ≠ 0) :
    (stream_add_packets s calls).firsttv = s.firsttv := by
  induction calls generalizing s with
  | nil => simp
  | cons call rest ih =>
    rw [stream_add_packets_cons,
        ih _ (by rw [stream_add_packet_pkt_count]; omega),
        stream_add_packet_firsttv_later _ _ _ h]

theorem stream_add_packets_packets (calls : List (Packet × Int)) (s : Stream) :
    (stream_add_packets s calls).packets = s.packets := by
  induction calls generalizing s with
  | nil => simp
  | cons call rest ih =>
    rw [stream_add_packets_cons, ih, (stream_add_packet_frame_fields s call.1 call.2).1]

/-! ## Claim theorems: Media Stream -/

/-- C3: on a freshly constructed stream, after any sequence of N
`stream_add_packet` calls the count is N; the first-packet timestamp is the
capture timestamp of the first call's packet and no later call changes it;
and every single call sets the last-activity timestamp to the current
monotonic time and the dirty flag to true. -/
theorem stream_add_packet_count_and_first_time (type : StreamType)
    (msg : Option Message) (media : Option PacketSdpMedia)
    (calls : List (Packet × Int)) :
    stream_get_count (stream_add_packets (stream_new type msg media) calls) =
      calls.length ∧
    (∀ firstCall rest, calls = firstCall :: rest →
        stream_time (stream_add_packets (stream_new type msg media) calls) =
          packet_time firstCall.1) ∧
    (∀ (s : Stream) (packet : Packet) (now : Int),
        (stream_add_packet s packet now).lasttm = now ∧
        (stream_add_packet s packet now).changed = true) := by
  refine ⟨?_, ?_, ?_⟩
  · rw [stream_get_count, stream_add_packets_pkt_count]
    simp [stream_new]
  · rintro ⟨p, t⟩ rest rfl
    rw [stream_add_packets_cons]
    unfold stream_time
    rw [stream_add_packets_firsttv_frozen _ _
          (by rw [stream_add_packet_pkt_count]; omega),
        stream_add_packet_firsttv_first]
    rfl
  · intro s packet now
    exact ⟨stream_add_packet_lasttm s packet now, stream_add_packet_changed s packet now⟩

/-- C9: `stream_add_packet` never touches the stream's owned packet
container — after any sequence of calls on a fresh stream it is still the
empty container the constructor made — and it changes nothing but the
last-activity timestamp, the dirty flag, the packet count and (only on
the first call, when the count is still zero) the first-packet timestamp;
the count therefore reflects the number of calls, not the container's
size. -/
theorem stream_add_packet_frame_effect (type : StreamType)
    (msg : Option Message) (media : Option PacketSdpMedia)
    (calls : List (Packet × Int)) :
    (stream_new type msg media).packets = [] ∧
    (stream_add_packets (stream_new type msg media) calls).packets = [] ∧
    (∀ (s : Stream) (packet : Packet) (now : Int),
        (stream_add_packet s packet now).packets = s.packets ∧
        (stream_add_packet s packet now).type = s.type ∧
        (stream_add_packet s packet now).msg = s.msg ∧
        (stream_add_packet s packet now).media = s.media ∧
        (stream_add_packet s packet now).src = s.src ∧
        (stream_add_packet s packet now).dst = s.dst ∧
        (stream_add_packet s packet now).fmtcode = s.fmtcode) ∧
    (∀ (s : Stream) (packet : Packet) (now : Int), s.pkt_count ≠ 0 →
        (stream_add_packet s packet now).firsttv = s.firsttv) ∧
    stream_get_count (stream_add_packets (stream_new type msg media) calls) =
      calls.length := by
  refine ⟨rfl, ?_, ?_, ?_, ?_⟩
  · rw [stream_add_packets_packets]
    rfl
  · intro s packet now
    exact stream_add_packet_frame_fields s packet now
  · intro s packet now h
    exact stream_add_packet_firsttv_later s packet now h
  · rw [stream_get_count, stream_add_packets_pkt_count]
    simp [stream_new]

/-- C8: `stream_is_active` is true exactly when the elapsed monotonic time
since the last activity is at most the inactivity threshold; it is true at
the very moment any `stream_add_packet` call runs; and with no further
packets it is monotone non-increasing as time advances (it is also a pure
read: the model returns a Bool and leaves the stream untouched). -/
theorem stream_is_active_characterisation :
    (∀ (stream : Stream) (now : Int),
        stream_is_active stream now = true ↔
          now - stream.lasttm ≤ STREAM_INACTIVE_SECS) ∧
    (∀ (stream : Stream) (packet : Packet) (now : Int),
        stream_is_active (stream_add_packet stream packet now) now = true) ∧
    (∀ (stream : Stream) (t1 t2 : Int), t1 ≤ t2 →
        stream_is_active stream t2 = true → stream_is_active stream t1 = true) := by
  refine ⟨?_, ?_, ?_⟩
  · intro stream now
    simp [stream_is_active]
  · intro stream packet now
    simp [stream_is_active, stream_add_packet_lasttm, STREAM_INACTIVE_SECS]
  · intro stream t1 t2 h12 h2
    simp only [stream_is_active, decide_eq_true_eq] at h2 ⊢
    omega

/-- C10: with a null stream, or a stream whose media back-reference is
null, the resolved format name is null even when the format code is in
the static built-in table: the null-media guard runs before the static
lookup. -/
theorem stream_get_format_null_media :
    stream_get_format none = none ∧
    (∀ s : Stream, s.media = none → stream_get_format (some s) = none) ∧
    (∀ s : Stream, s.media = none →
        ∀ encoding, packet_rtp_standard_codec s.fmtcode = some encoding →
          stream_get_format (some s) = none) := by
  refine ⟨rfl, ?_, ?_⟩
  · intro s h
    simp [stream_get_format, h]
  · intro s h encoding _
    simp [stream_get_format, h]

/-! ## Lemmas about the dynamic-format scan -/

theorem sdp_format_for_first_match (code : Nat) (pre : List PacketSdpFormat)
    (f : PacketSdpFormat) (post : List PacketSdpFormat)
    (hpre : ∀ g ∈ pre, g.id ≠ code) (hf : f.id = code) :
    sdp_format_for (pre ++ f :: post) code = some f.aliasName := by
  induction pre with
  | nil => simp [sdp_format_for, hf]
  | cons g rest ih =>
    have hg : g.id ≠ code := hpre g (List.mem_cons_self g rest)
    rw [List.cons_append]
    simp only [sdp_format_for, beq_iff_eq, hg, if_false]
    exact ih fun x hx => hpre x (List.mem_cons_of_mem g hx)

theorem sdp_format_for_no_match (code : Nat) (l : List PacketSdpFormat)
    (h : ∀ g ∈ l, g.id ≠ code) :
    sdp_format_for l code = none := by
  induction l with
  | nil => rfl
  | cons g rest ih =>
    have hg : g.id ≠ code := h g (List.mem_cons_self g rest)
    simp only [sdp_format_for, beq_iff_eq, hg, if_false]
    exact ih fun x hx => h x (List.mem_cons_of_mem g hx)

/-- C2: for a stream with a media descriptor, format-name resolution obeys
the order: a code in the static built-in table resolves to the static
canonical name whatever the dynamic list declares (collisions included);
a code not in the static table resolves to the alias of the first dynamic
entry whose id matches; a code in neither resolves to null. -/
theorem stream_get_format_resolution (s : Stream) (media : PacketSdpMedia)
    (hm : s.media = some media) :
    (∀ encoding, packet_rtp_standard_codec s.fmtcode = some encoding →
        stream_get_format (some s) = some encoding.format) ∧
    (packet_rtp_standard_codec s.fmtcode = none →
      ∀ (pre : List PacketSdpFormat) (f : PacketSdpFormat)
        (post : List PacketSdpFormat),
        media.formats = pre ++ f :: post →
        (∀ g ∈ pre, g.id ≠ s.fmtcode) → f.id = s.fmtcode →
        stream_get_format (some s) = some f.aliasName) ∧
    (packet_rtp_standard_codec s.fmtcode = none →
      (∀ f ∈ media.formats, f.id ≠ s.fmtcode) →
        stream_get_format (some s) = none) := by
  refine ⟨?_, ?_, ?_⟩
  · intro encoding henc
    simp [stream_get_format, hm, henc]
  · intro hnone pre f post hsplit hpre hf
    simp only [stream_get_format, hm, hnone]
    rw [hsplit]
    exact sdp_format_for_first_match s.fmtcode pre f post hpre hf
  · intro hnone hnomatch
    simp only [stream_get_format, hm, hnone]
    exact sdp_format_for_no_match s.fmtcode media.formats hnomatch

/-- Witness for C2 at the concrete fixtures: code 0 resolves statically to
"PCMU" although the dynamic list also declares id 0; code 96 resolves to
the alias of the first of the two dynamic id-96 entries; code 99 resolves
to null. -/
theorem stream_get_format_resolution_witness :
    stream_get_format (some streamStatic) = some "PCMU" ∧
    stream_get_format (some streamDynamic) = some "opus" ∧
    stream_get_format (some streamUnknown) = none := by
  refine ⟨?_, ?_, ?_⟩
  · exact (stream_get_format_resolution streamStatic mediaFixture rfl).1
      ⟨0, "PCMU"⟩ (by decide)
  · exact (stream_get_format_resolution streamDynamic mediaFixture rfl).2.1
      (by decide) [⟨0, "dynzero"⟩] ⟨96, "opus"⟩ [⟨96, "dup"⟩, ⟨97, "h264"⟩]
      (by decide) (by decide) (by decide)
  · exact (stream_get_format_resolution streamUnknown mediaFixture rfl).2.2
      (by decide) (by decide)

/-! ## Lemmas about the set_filter loop -/

theorem set_filter_loop_all_accept (manager : CaptureManager) (filter : String)
    (l : List CaptureInput)
    (h : ∀ input ∈ l, ∀ applyF, input.filter = some applyF → applyF filter = true) :
    set_filter_loop manager filter l = ({ manager with filter := some filter }, true) := by
  induction l with
  | nil => rfl
  | cons input rest ih =>
    have hrest : ∀ i ∈ rest, ∀ applyF, i.filter = some applyF → applyF filter = true :=
      fun i hi => h i (List.mem_cons_of_mem input hi)
    cases hf : input.filter with
    | none => simp only [set_filter_loop, hf]; exact ih hrest
    | some applyF =>
      have hacc : applyF filter = true :=
        h input (List.mem_cons_self input rest) applyF hf
      simp only [set_filter_loop, hf, hacc, if_true]
      exact ih hrest

theorem set_filter_loop_some_reject (manager : CaptureManager) (filter : String)
    (l : List CaptureInput)
    (h : ∃ input ∈ l, ∃ applyF, input.filter = some applyF ∧ applyF filter = false) :
    set_filter_loop manager filter l = ({ manager with filter := none }, false) := by
  induction l with
  | nil => simp at h
  | cons input rest ih =>
    rcases h with ⟨i, hi, applyF, happ, hrej⟩
    cases hf : input.filter with
    | none =>
      simp only [set_filter_loop, hf]
      rcases List.mem_cons.mp hi with rfl | hirest
      · rw [hf] at happ; exact absurd happ (by simp)
      · exact ih ⟨i, hirest, applyF, happ, hrej⟩
    | some applyG =>
      by_cases hacc : applyG filter
      · simp only [set_filter_loop, hf, hacc, if_true]
        rcases List.mem_cons.mp hi with rfl | hirest
        · rw [hf] at happ
          rw [Option.some_inj.mp happ, hrej] at hacc
          simp at hacc
        · exact ih ⟨i, hirest, applyF, happ, hrej⟩
      · simp [set_filter_loop, hf, hacc]

/-! ## Claim theorems: Capture Orchestrator -/

/-- C1: if every registered source that exposes a filter-apply operation
accepts the expression (vacuously so with no sources), the call stores
the expression verbatim as the manager's filter and reports success; if
some source rejects it, the call reports failure and the stored filter
ends up unset, no matter where in the registration order the rejection
happened. -/
theorem capture_manager_set_filter_spec (manager : CaptureManager) (filter : String) :
    ((∀ input ∈ manager.inputs, ∀ applyF,
        input.filter = some applyF → applyF filter = true) →
      capture_manager_set_filter manager filter =
        ({ manager with filter := some filter }, true)) ∧
    ((∃ input ∈ manager.inputs, ∃ applyF,
        input.filter = some applyF ∧ applyF filter = false) →
      capture_manager_set_filter manager filter =
        ({ manager with filter := none }, false)) := by
  constructor
  · intro h
    exact set_filter_loop_all_accept manager filter manager.inputs h
  · intro h
    exact set_filter_loop_some_reject manager filter manager.inputs h

/-! ## Lemmas about the status counts -/

theorem capture_is_online_loop_iff (l : List CaptureInput) :
    is_online_loop l = true ↔ ∀ input ∈ l, input.mode ≠ CaptureMode.offline := by
  induction l with
  | nil => simp [is_online_loop]
  | cons input rest ih =>
    by_cases h : input.mode = CaptureMode.offline <;>
      simp [is_online_loop, h, ih]

/-- C7: `capture_is_online` is true exactly when no registered source is
in offline-replay mode — vacuously true with no sources, false as soon as
one offline source is registered. -/
theorem capture_is_online_iff_no_offline (manager : CaptureManager) :
    capture_is_online manager = true ↔
      ∀ input ∈ manager.inputs, input.mode ≠ CaptureMode.offline := by
  unfold capture_is_online
  exact capture_is_online_loop_iff manager.inputs

/-- C4: the status description is the exact function of the four booleans
(paused, online-count positive, offline-count positive, loading-count
positive) that the spec's truth table gives: category "Online"/"Offline"/
"Mixed" from the two presence booleans, suffix "(Paused)" before
"(Loading)" before none. -/
theorem capture_status_desc_truth_table (manager : CaptureManager) :
    capture_status_desc manager =
      status_desc_table manager.paused
        (decide (0 < (status_counts manager.inputs).1))
        (decide (0 < (status_counts manager.inputs).2.1))
        (decide (0 < (status_counts manager.inputs).2.2)) := by
  unfold capture_status_desc status_desc_table
  rcases hc : status_counts manager.inputs with ⟨online, offline, loading⟩
  cases manager.paused <;>
    cases online <;> cases offline <;> cases loading <;>
      simp

/-! ## Lemmas about the sink loops -/

theorem close_outputs_from_eq_enumFrom (k : Nat) (l : List CaptureOutput) :
    close_outputs_from k l =
      (List.enumFrom k l).filterMap (fun p =>
        if p.2.close.isSome then some (CaptureEvent.closeOutput p.1) else none) := by
  induction l generalizing k with
  | nil => simp [close_outputs_from]
  | cons output rest ih =>
    by_cases h : output.close.isSome <;>
      simp [close_outputs_from, List.enumFrom, h, ih]

theorem write_outputs_from_eq_enumFrom (k : Nat) (l : List CaptureOutput) :
    write_outputs_from k l =
      (List.enumFrom k l).filterMap (fun p =>
        if p.2.write.isSome then some (CaptureEvent.writeOutput p.1) else none) := by
  induction l generalizing k with
  | nil => simp [write_outputs_from]
  | cons output rest ih =>
    by_cases h : output.write.isSome <;>
      simp [write_outputs_from, List.enumFrom, h, ih]

theorem write_outputs_from_index_ge (k : Nat) (l : List CaptureOutput) (i : Nat)
    (hmem : CaptureEvent.writeOutput i ∈ write_outputs_from k l) : k ≤ i := by
  induction l generalizing k with
  | nil => simp [write_outputs_from] at hmem
  | cons output rest ih =>
    by_cases h : output.write.isSome <;>
      simp only [write_outputs_from, h, if_true, if_false, Bool.false_eq_true,
        List.mem_cons] at hmem
    · rcases hmem with heq | hmem
      · injection heq with hik
        omega
      · exact Nat.le_of_succ_le (ih (k + 1) hmem)
    · exact Nat.le_of_succ_le (ih (k + 1) hmem)

theorem write_outputs_from_nodup (k : Nat) (l : List CaptureOutput) :
    (write_outputs_from k l).Nodup := by
  induction l generalizing k with
  | nil => simp [write_outputs_from]
  | cons output rest ih =>
    by_cases h : output.write.isSome <;>
      simp only [write_outputs_from, h, if_true, if_false, Bool.false_eq_true]
    · refine List.nodup_cons.mpr ⟨?_, ih (k + 1)⟩
      intro hmem
      have := write_outputs_from_index_ge (k + 1) rest k hmem
      omega
    · exact ih (k + 1)

/-- C5: `capture_manager_stop` performs exactly, in order: the close
operation of every sink that has one, in registration order (sinks
without one are skipped without error), then the loop-quit signal, then
the thread join — it is total, and the join is its final step. -/
theorem capture_manager_stop_spec (manager : CaptureManager) :
    capture_manager_stop manager =
      (manager.outputs.enum.filterMap (fun p =>
          if p.2.close.isSome then some (CaptureEvent.closeOutput p.1) else none))
        ++ [CaptureEvent.quitLoop, CaptureEvent.joinThread] := by
  unfold capture_manager_stop
  rw [List.enum, close_outputs_from_eq_enumFrom]

/-- C6: the per-packet fan-out invokes the write operation of exactly the
sinks that have one, in registration order, an absent operation being a
no-op — and its trace has no duplicates, so no sink is written to more
than once per packet. -/
theorem capture_manager_output_packet_spec (manager : CaptureManager) (packet : Packet) :
    capture_manager_output_packet manager packet =
      manager.outputs.enum.filterMap (fun p =>
        if p.2.write.isSome then some (CaptureEvent.writeOutput p.1) else none) ∧
    (capture_manager_output_packet manager packet).Nodup := by
  constructor
  · unfold capture_manager_output_packet
    rw [List.enum, write_outputs_from_eq_enumFrom]
  · exact write_outputs_from_nodup 0 manager.outputs

/-! ## Concrete sanity checks of the embedding (spec §8 end-to-end cases) -/

/-- One live plus one finished offline source: two sources, not online,
status category "Mixed" with no suffix. -/
theorem mixed_scenario_check :
    capture_sources_count mixedManager = 2 ∧
    capture_is_online mixedManager = false ∧
    capture_status_desc mixedManager = "Mixed" :=
  ⟨rfl, rfl, rfl⟩

/-- Zero sources: set_filter succeeds vacuously and stores the expression
verbatim. -/
theorem set_filter_vacuous_check :
    capture_manager_set_filter emptyManager "sip" =
      ({ emptyManager with filter := some "sip" }, true) := rfl

/-- Stop closes sinks 0 and 2 (sink 1 has no close operation), then quits
the loop, then joins the thread. -/
theorem stop_trace_check :
    capture_manager_stop sinkManager =
      [CaptureEvent.closeOutput 0, CaptureEvent.closeOutput 2,
       CaptureEvent.quitLoop, CaptureEvent.joinThread] := rfl

/-- The fan-out writes to sinks 0 and 2 only (sink 1 has no write
operation). -/
theorem output_packet_trace_check :
    capture_manager_output_packet sinkManager ⟨5⟩ =
      [CaptureEvent.writeOutput 0, CaptureEvent.writeOutput 2] := rfl

/-- Two packets on a fresh stream: count 2, first timestamp that of the
first packet, active at one tick past the last activity but not at five. -/
theorem add_packet_check :
    stream_get_count (stream_add_packets (stream_new StreamType.rtp none none)
      [(⟨10⟩, 100), (⟨20⟩, 105)]) = 2 ∧
    stream_time (stream_add_packets (stream_new StreamType.rtp none none)
      [(⟨10⟩, 100), (⟨20⟩, 105)]) = 10 ∧
    stream_is_active (stream_add_packets (stream_new StreamType.rtp none none)
      [(⟨10⟩, 100), (⟨20⟩, 105)]) 106 = true ∧
    stream_is_active (stream_add_packets (stream_new StreamType.rtp none none)
      [(⟨10⟩, 100), (⟨20⟩, 105)]) 109 = false := by
  decide

end Sngrep
